import Mathlib

/-
Verification of the arch-suite tui-launcher menu-navigation core.

The repository contains three iterations of the same application:
  * `src/tui-launcher/src/main.rs` (v3.1.2, self-contained; namespace `V3`
    below);
  * `src/tui-launcher/src/app.rs` + `src/tui-launcher/src/ui.rs` (v4.0.0;
    namespaces `Draft` and `V4` below);
  * `src/tui-launcher/src/event.rs` together with
    `src/tui-launcher/src/components/stateful_list.rs` (the newest iteration,
    top namespace `ArchSuite` below).  The `App`/`Popup`/`AppView`
    declarations this newest `event.rs` imports are not present under src/;
    their fields and variants are reconstructed from their uses in `event.rs`
    and from the session-state description of the specification (section 3).

Rust `async` tasks bound to menu entries are opaque operations producing
`Result<String>`-like outcomes; a task is embedded as the outcome it resolves
to (`Except String String`).  Side effects relevant to the claims (drawing a
frame, running a task) are made observable through an event trace.
-/

namespace ArchSuite

/-- Abstracted key codes: the variants inspected by the handlers in
`event.rs` and `main.rs` (`Char`, `Up`, `Down`, `Enter`, `Esc`); all other
crossterm key codes fall into the wildcard arms of the source matches and are
not distinguished by any handler. -/
inductive KeyCode
  | char (c : Char)
  | up
  | down
  | enter
  | esc
deriving DecidableEq

/-- Embedding of `StatefulList<T>` from
`src/tui-launcher/src/components/stateful_list.rs` (the guarded version,
carrying the "FIX" comment).  `state` is the ratatui `ListState`, of which the
code only ever uses the selected index (`ListState::default()` has selected
`None`). -/
structure StatefulList (α : Type) where
  state : Option Nat
  items : List α
deriving DecidableEq

/-- Embedding of `StatefulList::with_items`
(`components/stateful_list.rs`, lines 14-22): record emptiness, build the list
with a default (unselected) state, then select index 0 unless empty. -/
def StatefulList.with_items {α : Type} (items : List α) : StatefulList α :=
  let is_empty := items.isEmpty
  let list : StatefulList α := { state := none, items := items }
  if is_empty then list else { list with state := some 0 }

/-- Embedding of `StatefulList::next`
(`components/stateful_list.rs`, lines 24-30): no-op on an empty list,
otherwise advance the selected index, wrapping from `len - 1` to `0`;
an unselected state selects index 0 (`map_or(0, ..)`). -/
def StatefulList.next {α : Type} (l : StatefulList α) : StatefulList α :=
  if l.items.isEmpty then l
  else
    let i := match l.state with
      | none => 0
      | some i => if i ≥ l.items.length - 1 then 0 else i + 1
    { l with state := some i }

/-- Embedding of `StatefulList::previous`
(`components/stateful_list.rs`, lines 32-38): no-op on an empty list,
otherwise retreat the selected index, wrapping from `0` to `len - 1`. -/
def StatefulList.previous {α : Type} (l : StatefulList α) : StatefulList α :=
  if l.items.isEmpty then l
  else
    let i := match l.state with
      | none => 0
      | some i => if i = 0 then l.items.length - 1 else i - 1
    { l with state := some i }

/-- Embedding of `StatefulList::selected_item`
(`components/stateful_list.rs`, lines 40-45); `List.get?` embeds the
bounds-checked `Vec::get`. -/
def StatefulList.selected_item {α : Type} (l : StatefulList α) : Option α :=
  match l.state with
  | some i => l.items.get? i
  | none => none

/-- Selection invariant of the specification (section 3): a non-empty list
always has a selected index in bounds; an empty list has none. -/
def SelInv {α : Type} (l : StatefulList α) : Prop :=
  if l.items.isEmpty then l.state = none
  else ∃ i, l.state = some i ∧ i < l.items.length

/-- Outcome of an asynchronous task: the `Result<String>` value its future
resolves to.  The futures themselves (`AppAction` in `app.rs`) are opaque
external operations; the core only ever observes this resolved value. -/
abbrev TaskResult := Except String String

deriving instance DecidableEq for Except

/-- Modelled from the spec: the `AppView` enumeration imported by `event.rs`
is not present under src/ (the `app.rs` in src/ is an older iteration without
`ManualInstaller`).  Variants are those matched in `event.rs` lines 34-46,
matching the view list of spec section 3. -/
inductive AppView
  | MainMenu
  | HelpManual
  | Replicator
  | Cloner
  | Utilities
  | ManualInstaller
deriving DecidableEq

/-- Modelled from the spec: the `Popup` enumeration imported by `event.rs` is
not present under src/.  Variants are those matched in `handle_popup_keys`
(`event.rs` lines 59-103), matching the popup list of spec section 3. -/
inductive Popup
  | None
  | Help
  | Action
  | Confirm
  | Input
  | Select
deriving DecidableEq

/-- Embedding of `Action` from `src/tui-launcher/src/actions.rs` lines 13-17.
The `Execute` payload (`fn() -> AppAction` in the source) is embedded as the
`TaskResult` the task resolves to. -/
inductive Action
  | Quit
  | SetView (v : AppView)
  | Execute (task : TaskResult)
deriving DecidableEq

/-- Embedding of `MenuItem` (`app.rs` lines 74-79, with the `action` field at
the newest iteration's `Action` type as used by `handle_menu_keys` in
`event.rs`). -/
structure MenuItem where
  icon : String
  text : String
  help : String
  action : Action
deriving DecidableEq

/-- Modelled from the spec: the `App` session-state struct imported by
`event.rs` is not present under src/ (the `app.rs` in src/ is an older
iteration lacking `active_popup`, `popup_action`, `popup_list` and
`manual_install_menu`).  Fields are exactly those read or written by
`event.rs`, matching the session state of spec section 3.  `popup_input`
stands for the `tui_input::Input` buffer. -/
structure App where
  should_quit : Bool
  current_view : AppView
  active_popup : Popup
  popup_title : String
  popup_text : String
  popup_action : Option Action
  popup_input : String
  popup_list : StatefulList String
  main_menu : StatefulList MenuItem
  replicator_menu : StatefulList MenuItem
  cloner_menu : StatefulList MenuItem
  utilities_menu : StatefulList MenuItem
  manual_install_menu : StatefulList MenuItem
deriving DecidableEq

/-- Observable events of one key-handling step: `exec` marks an action handed
to `execute_action`, `draw` a full frame drawn with the given session state
(`terminal.draw` in the source), `taskRun` the point where the `Execute`
branch awaits the task future. -/
inductive Ev
  | exec (act : Action)
  | draw (s : App)
  | taskRun
deriving DecidableEq

/-- Minimal model of the external `tui_input` editor used by the Input popup
(`app.popup_input.handle_event` in `event.rs` line 86): a literal character is
appended to the buffer, every other key of our alphabet leaves it unchanged.
The editor is an external collaborator; no claim inspects the buffer. -/
def inputHandleEvent (k : KeyCode) (buf : String) : String :=
  match k with
  | .char c => buf.push c
  | _ => buf

/-- Embedding of `execute_action` (`event.rs` lines 122-147).  `Quit` sets the
quit flag, `SetView` sets the view (and nothing else), `Execute` installs the
working Action popup, draws one frame of that state, awaits the task and then
overwrites the popup title/body with the outcome.  The returned trace records
the hand-off, the draw and the await in program order. -/
def execute_action (app : App) (action : Action) : App × List Ev :=
  match action with
  | .Quit => ({ app with should_quit := true }, [Ev.exec action])
  | .SetView view => ({ app with current_view := view }, [Ev.exec action])
  | .Execute task =>
      let working : App :=
        { app with popup_title := "Working...",
                   popup_text := "Please wait while the task completes.",
                   active_popup := Popup.Action }
      let events := [Ev.exec action, Ev.draw working, Ev.taskRun]
      match task with
      | .ok message =>
          ({ working with popup_title := "Success", popup_text := message },
            events)
      | .error e =>
          ({ working with popup_title := "Error",
                          popup_text := "An error occurred: " ++ e }, events)

/-- Embedding of the block repeated in the Confirm/Input/Select commit arms
of `handle_popup_keys` (`event.rs` lines 64-68, 76-80, 92-96):
`if let Some(action) = app.popup_action.take()` runs the pending action, after
which the popup is closed.  `take` moves the stored action out, leaving
`None`. -/
def commit_pending (app : App) : App × List Ev :=
  match app.popup_action with
  | some action =>
      let r := execute_action { app with popup_action := none } action
      ({ r.1 with active_popup := Popup.None }, r.2)
  | none => ({ app with popup_action := none, active_popup := Popup.None }, [])

/-- Embedding of `handle_popup_keys` (`event.rs` lines 58-106): Help and
Action popups close on any key; Confirm commits on `y`/`Y` and closes without
committing on `n`/`N`/Esc; Input commits on Enter, closes on Esc, and feeds
every other key to the text editor; Select moves its own list on `k`/up and
`j`/down, commits on Enter and closes on Esc. -/
def handle_popup_keys (app : App) (key_event : KeyCode) : App × List Ev :=
  match app.active_popup with
  | .Help | .Action => ({ app with active_popup := Popup.None }, [])
  | .Confirm =>
      match key_event with
      | .char 'y' | .char 'Y' => commit_pending app
      | .char 'n' | .char 'N' | .esc =>
          ({ app with active_popup := Popup.None }, [])
      | _ => (app, [])
  | .Input =>
      match key_event with
      | .enter => commit_pending app
      | .esc => ({ app with active_popup := Popup.None }, [])
      | _ =>
          ({ app with popup_input := inputHandleEvent key_event app.popup_input },
            [])
  | .Select =>
      match key_event with
      | .char 'k' | .up => ({ app with popup_list := app.popup_list.previous }, [])
      | .char 'j' | .down => ({ app with popup_list := app.popup_list.next }, [])
      | .enter => commit_pending app
      | .esc => ({ app with active_popup := Popup.None }, [])
      | _ => (app, [])
  | .None => (app, [])

/-- Embedding of `handle_menu_keys` (`event.rs` lines 108-120): `k`/up move
the selection back, `j`/down forward, Enter returns the selected entry's
action; every other key is ignored. -/
def handle_menu_keys (list : StatefulList MenuItem) (key_code : KeyCode) :
    StatefulList MenuItem × Option Action :=
  match key_code with
  | .char 'k' | .up => (list.previous, none)
  | .char 'j' | .down => (list.next, none)
  | .enter =>
      match list.selected_item with
      | some item => (list, some item.action)
      | none => (list, none)
  | _ => (list, none)

/-- Embedding of the view-level routing of `handle_key_event` (`event.rs`
lines 34-47): the `match app.current_view` computing `action_to_perform`,
together with the menu mutation it performs in place. -/
def view_step (app : App) (key_event : KeyCode) : App × Option Action :=
  match app.current_view with
  | .MainMenu =>
      let r := handle_menu_keys app.main_menu key_event
      ({ app with main_menu := r.1 }, r.2)
  | .Replicator =>
      let r := handle_menu_keys app.replicator_menu key_event
      ({ app with replicator_menu := r.1 }, r.2)
  | .Cloner =>
      let r := handle_menu_keys app.cloner_menu key_event
      ({ app with cloner_menu := r.1 }, r.2)
  | .Utilities =>
      let r := handle_menu_keys app.utilities_menu key_event
      ({ app with utilities_menu := r.1 }, r.2)
  | .ManualInstaller =>
      let r := handle_menu_keys app.manual_install_menu key_event
      ({ app with manual_install_menu := r.1 }, r.2)
  | .HelpManual =>
      (if key_event = KeyCode.char 'q' ∨ key_event = KeyCode.esc then
        { app with current_view := AppView.MainMenu }
      else app, none)

/-- Embedding of `handle_key_event` (`event.rs` lines 24-56): an active popup
receives the key exclusively; otherwise `?` opens the Help popup; otherwise
the key routes to the active view and any produced action is executed, with
Esc falling back to MainMenu when no action was produced. -/
def handle_key_event (app : App) (key_event : KeyCode) : App × List Ev :=
  if app.active_popup ≠ Popup.None then
    handle_popup_keys app key_event
  else if key_event = KeyCode.char '?' then
    ({ app with active_popup := Popup.Help }, [])
  else
    match (view_step app key_event).2 with
    | some action => execute_action (view_step app key_event).1 action
    | none =>
        if key_event = KeyCode.esc ∧
            (view_step app key_event).1.current_view ≠ AppView.MainMenu then
          ({ (view_step app key_event).1 with current_view := AppView.MainMenu },
            [])
        else ((view_step app key_event).1, [])

/-- Equality of the five per-view menu lists (items and selection) between
two session states: the popup layer never mutates the view layer. -/
def menusEq (a b : App) : Prop :=
  b.main_menu = a.main_menu ∧ b.replicator_menu = a.replicator_menu ∧
  b.cloner_menu = a.cloner_menu ∧ b.utilities_menu = a.utilities_menu ∧
  b.manual_install_menu = a.manual_install_menu

/-- Placeholder menu entry used to build concrete menus in scenario
statements. -/
def mkEntry (t : String) : MenuItem :=
  { icon := "[ ]", text := t, help := t, action := Action.Quit }

/-- Concrete five-entry menu for the spec scenario of section 8. -/
def menu5 : StatefulList MenuItem :=
  StatefulList.with_items
    [mkEntry ("a"), mkEntry ("b"), mkEntry ("c"), mkEntry ("d"), mkEntry ("e")]

/-- Single press of the "down" key routed through `handle_menu_keys`. -/
def pressDown (l : StatefulList MenuItem) : StatefulList MenuItem :=
  (handle_menu_keys l KeyCode.down).1

/-- Concrete session state used by counterexamples and witnesses. -/
def sampleApp : App :=
  { should_quit := false
    current_view := AppView.MainMenu
    active_popup := Popup.None
    popup_title := ""
    popup_text := ""
    popup_action := none
    popup_input := ""
    popup_list := StatefulList.with_items []
    main_menu := menu5
    replicator_menu := StatefulList.with_items [mkEntry ("r")]
    cloner_menu := StatefulList.with_items [mkEntry ("c")]
    utilities_menu := StatefulList.with_items [mkEntry ("u")]
    manual_install_menu := StatefulList.with_items [mkEntry ("m")] }

namespace Draft

/-- Embedding of the draft `StatefulList<T>` of `main.rs` v3.1.2 lines 36-49;
`app.rs` lines 43-66 holds a textually identical copy.  `with_items` selects
index 0 even on an empty list, and `next`/`previous` have no emptiness guard:
on an empty list the source's `self.items.len() - 1` underflows `usize` (a
panic in debug builds); that subtraction is embedded as truncated `Nat`
subtraction, which only matters on empty lists, and every menu built by these
iterations is non-empty. -/
structure StatefulList (α : Type) where
  state : Option Nat
  items : List α
deriving DecidableEq

def StatefulList.with_items {α : Type} (items : List α) : StatefulList α :=
  { state := some 0, items := items }

def StatefulList.next {α : Type} (l : StatefulList α) : StatefulList α :=
  let i := match l.state with
    | none => 0
    | some i => if i ≥ l.items.length - 1 then 0 else i + 1
  { l with state := some i }

def StatefulList.previous {α : Type} (l : StatefulList α) : StatefulList α :=
  let i := match l.state with
    | none => 0
    | some i => if i = 0 then l.items.length - 1 else i - 1
  { l with state := some i }

end Draft

namespace V3

/-- Embedding of `AppView` from `main.rs` v3.1.2 lines 29-34. -/
inductive AppView
  | MainMenu
  | HelpManual
  | ActionPopup
deriving DecidableEq

/-- Embedding of `MenuItem` (`main.rs` v3.1.2 lines 57-62); the bound
`ActionFn` is embedded as the outcome its future resolves to. -/
structure MenuItem where
  icon : String
  text : String
  help : String
  action : TaskResult
deriving DecidableEq

/-- Embedding of `App` (`main.rs` v3.1.2 lines 64-70). -/
structure App where
  current_view : AppView
  show_help_popup : Bool
  should_quit : Bool
  main_menu : Draft.StatefulList MenuItem
  action_popup_text : String
deriving DecidableEq

/-- Embedding of `App::new` (`main.rs` v3.1.2 lines 72-88).  The first
entry's task (`action_create_snapshot`) runs external commands, so its outcome
is a parameter; the other entries' task outcomes are literal in the source —
in particular Main Help resolves to `Err("help")` and Quit to `Err("quit")`
(the source marks both arms "Special case"). -/
def App.new (snapshot : TaskResult) : App :=
  { current_view := AppView.MainMenu
    show_help_popup := false
    should_quit := false
    main_menu := Draft.StatefulList.with_items
      [ { icon := "[R]", text := "Replicator (Recommended)",
          help := "Captures the 'recipe' for your system (packages, configs) into a single file. Use this to perform a clean, fresh installation on new hardware that perfectly matches your setup.",
          action := snapshot }
      , { icon := "[C]", text := "Cloner (Advanced)",
          help := "Creates a direct, 1:1 bootable ISO image of your current system's disk. This is best for creating a full backup or moving your exact OS to identical hardware.",
          action := Except.ok ("Cloner not yet implemented.") }
      , { icon := "[U]", text := "Utilities & Manual Tools",
          help := "A collection of essential tools for system maintenance, including a hardware inspector, USB flasher, and manual installation steps.",
          action := Except.ok ("Utilities not yet implemented.") }
      , { icon := "[H]", text := "Main Help",
          help := "Displays the main, scrollable help manual for the entire application.",
          action := Except.error ("help") }
      , { icon := "[Q]", text := "Quit",
          help := "Exits the Arch System Suite application.",
          action := Except.error ("quit") } ]
    action_popup_text := "" }

/-- Embedding of `handle_main_menu_input` (`main.rs` v3.1.2 lines 137-172).
The value `none` embeds the panic of the source's unchecked index
`items[selected]` when the selected index is out of bounds.  On Enter the
selected entry's task outcome is matched: an `Ok` message opens the result
view, while an `Err` is inspected textually — the strings "quit" and "help"
are treated as navigation signals rather than failures. -/
def handle_main_menu_input (key_code : KeyCode) (app : App) : Option App :=
  match key_code with
  | .char 'q' => some { app with should_quit := true }
  | .char 'k' | .up => some { app with main_menu := app.main_menu.previous }
  | .char 'j' | .down => some { app with main_menu := app.main_menu.next }
  | .enter =>
      match app.main_menu.state with
      | some selected =>
          match app.main_menu.items.get? selected with
          | none => none
          | some item =>
              match item.action with
              | .ok message =>
                  some { app with action_popup_text := message,
                                  current_view := AppView.ActionPopup }
              | .error e =>
                  if e = "quit" then some { app with should_quit := true }
                  else if e = "help" then
                    some { app with current_view := AppView.HelpManual }
                  else
                    some { app with action_popup_text := "Error: " ++ e,
                                    current_view := AppView.ActionPopup }
      | none => some app
  | _ => some app

/-- Embedding of `handle_input` (`main.rs` v3.1.2 lines 119-135): the help
toggle is checked first; while the help popup is shown any other key closes it
and nothing else runs; otherwise keys route to the active view, and any key
leaves the HelpManual/ActionPopup views back to the main menu. -/
def handle_input (key_code : KeyCode) (app : App) : Option App :=
  if key_code = KeyCode.char '?' then
    some { app with show_help_popup := !app.show_help_popup }
  else if app.show_help_popup then
    some { app with show_help_popup := false }
  else
    match app.current_view with
    | .MainMenu => handle_main_menu_input key_code app
    | .HelpManual | .ActionPopup =>
        some { app with current_view := AppView.MainMenu }

/-- Embedding of the text selection of `render_help_popup` (`main.rs` v3.1.2
lines 275-286): the help shown is that of the entry at the selected index,
defaulting to index 0 when the selection is `None`; `none` embeds the panic of
the source's unchecked index `items[selected().unwrap_or(0)]` when that entry
does not exist. -/
def render_help_popup_text (app : App) : Option String :=
  match app.current_view with
  | .MainMenu | .ActionPopup =>
      (app.main_menu.items.get? (app.main_menu.state.getD 0)).map MenuItem.help
  | .HelpManual =>
      some "This is the main help page. Use 'q' or 'Esc' to return to the previous menu."

end V3

namespace V4

/-- Embedding of `AppView` from `app.rs` lines 20-28 (v4.0.0). -/
inductive AppView
  | MainMenu
  | HelpManual
  | Replicator
  | Cloner
  | Utilities
  | ActionPopup
deriving DecidableEq

/-- Embedding of `InputMode` from `app.rs` lines 32-37. -/
inductive InputMode
  | Normal
  | Editing
deriving DecidableEq

/-- Embedding of `MenuItem` from `app.rs` lines 74-79; the bound `ActionFn`
is embedded as the outcome its future resolves to. -/
structure MenuItem where
  icon : String
  text : String
  help : String
  action : TaskResult
deriving DecidableEq

/-- Embedding of `App` from `app.rs` lines 82-99 (v4.0.0); `input` stands for
the `tui_input::Input` buffer. -/
structure App where
  current_view : AppView
  input_mode : InputMode
  show_help_popup : Bool
  should_quit : Bool
  main_menu : Draft.StatefulList MenuItem
  replicator_menu : Draft.StatefulList MenuItem
  cloner_menu : Draft.StatefulList MenuItem
  utilities_menu : Draft.StatefulList MenuItem
  popup_title : String
  popup_text : String
  input : String
deriving DecidableEq

/-- Embedding of the text selection of `render_help_popup` (`ui.rs` lines
87-101): for each menu view the help shown is that of the entry of that
view's menu at the selected index, defaulting to index 0 when the selection is
`None`; `none` embeds the panic of the source's unchecked index
`items[selected().unwrap_or(0)]` when that entry does not exist. -/
def render_help_popup_text (app : App) : Option String :=
  match app.current_view with
  | .MainMenu | .ActionPopup =>
      (app.main_menu.items.get? (app.main_menu.state.getD 0)).map MenuItem.help
  | .Replicator =>
      (app.replicator_menu.items.get? (app.replicator_menu.state.getD 0)).map
        MenuItem.help
  | .Cloner =>
      (app.cloner_menu.items.get? (app.cloner_menu.state.getD 0)).map
        MenuItem.help
  | .Utilities =>
      (app.utilities_menu.items.get? (app.utilities_menu.state.getD 0)).map
        MenuItem.help
  | .HelpManual =>
      some "This is the main help page. Use 'q' or 'Esc' to return to the previous menu."

/-- Concrete v4.0.0 session state used by witnesses. -/
def sample (view : AppView) (menu : Draft.StatefulList MenuItem) : App :=
  { current_view := view
    input_mode := InputMode.Normal
    show_help_popup := true
    should_quit := false
    main_menu := menu
    replicator_menu := menu
    cloner_menu := menu
    utilities_menu := menu
    popup_title := ""
    popup_text := ""
    input := "" }

end V4

/-- Concrete v3.1.2 session state: the startup state with the snapshot task
resolving to the given outcome and the main-menu selection moved to index
`i`. -/
def v3at (snapshot : TaskResult) (i : Nat) : V3.App :=
  let a := V3.App.new snapshot
  { a with main_menu := { a.main_menu with state := some i } }

/-- Concrete state with an open Confirm popup over a pending view change. -/
def confirmSetViewApp : App :=
  { sampleApp with active_popup := Popup.Confirm,
                   popup_action := some (Action.SetView AppView.Utilities) }

/-- Concrete state with an open Confirm popup over a pending Quit action. -/
def confirmQuitApp : App :=
  { sampleApp with active_popup := Popup.Confirm,
                   popup_action := some Action.Quit }

theorem selInv_of_empty {α : Type} (l : StatefulList α) (h : l.items = []) :
    SelInv l ↔ l.state = none := by
  simp [SelInv, h]

theorem next_empty {α : Type} (l : StatefulList α) (h : l.items = []) :
    l.next = l := by
  simp [StatefulList.next, h]

theorem previous_empty {α : Type} (l : StatefulList α) (h : l.items = []) :
    l.previous = l := by
  simp [StatefulList.previous, h]

theorem next_state_inbounds {α : Type} (l : StatefulList α) (i : Nat)
    (hs : l.state = some i) (hi : i < l.items.length) :
    l.next = { l with state := some ((i + 1) % l.items.length) } := by
  have hne : l.items.isEmpty = false := by
    cases hl : l.items with
    | nil => rw [hl] at hi; simp at hi
    | cons a t => simp [hl]
  unfold StatefulList.next
  rw [hne, hs]
  simp only [Bool.false_eq_true, if_false]
  congr 1
  by_cases hge : i ≥ l.items.length - 1
  · have hieq : i = l.items.length - 1 := by omega
    have : (i + 1) % l.items.length = 0 := by
      have : i + 1 = l.items.length := by omega
      rw [this]; exact Nat.mod_self _
    simp [hge, this]
  · have hlt : i + 1 < l.items.length := by omega
    simp [hge, Nat.mod_eq_of_lt hlt]

theorem previous_state_inbounds {α : Type} (l : StatefulList α) (i : Nat)
    (hs : l.state = some i) (hi : i < l.items.length) :
    l.previous =
      { l with state := some (if i = 0 then l.items.length - 1 else i - 1) } := by
  have hne : l.items.isEmpty = false := by
    cases hl : l.items with
    | nil => rw [hl] at hi; simp at hi
    | cons a t => simp [hl]
  unfold StatefulList.previous
  rw [hne, hs]
  simp

/-- C3: `with_items([])` yields selection `None`, and `next()`/`previous()` on
any empty list (whatever its selection state) leave the list exactly as it
was: they are total functions of the embedding and never index the empty
item vector. -/
theorem c3_empty_list_safe :
    (∀ α : Type, (StatefulList.with_items ([] : List α)).state = none) ∧
    (∀ (α : Type) (l : StatefulList α), l.items = [] →
      l.next = l ∧ l.previous = l) := by
  constructor
  · intro α
    simp [StatefulList.with_items]
  · intro α l h
    exact ⟨next_empty l h, previous_empty l h⟩

/-- C3 witness: evaluation of the empty-list operations at a concrete list
with a (deliberately stale) selected state. -/
theorem c3_empty_list_safe_witness :
    (⟨some 3, []⟩ : StatefulList Nat).items = [] ∧
    (⟨some 3, []⟩ : StatefulList Nat).next = ⟨some 3, []⟩ ∧
    (⟨some 3, []⟩ : StatefulList Nat).previous = ⟨some 3, []⟩ := by
  refine ⟨rfl, ?_⟩
  exact c3_empty_list_safe.2 Nat ⟨some 3, []⟩ rfl

/-- C4: `with_items` establishes the selection invariant and selects index 0
exactly when the item list is non-empty; `next`, `previous` preserve the
invariant, and `selected_item` (a read-only operation of the embedding)
returns an item exactly when the list is non-empty. -/
theorem c4_selection_invariant :
    (∀ (α : Type) (items : List α),
      SelInv (StatefulList.with_items items) ∧
      ((StatefulList.with_items items).state = some 0 ↔ items ≠ [])) ∧
    (∀ (α : Type) (l : StatefulList α), SelInv l →
      SelInv l.next ∧ SelInv l.previous ∧
      (l.selected_item.isSome ↔ l.items ≠ [])) := by
  constructor
  · intro α items
    cases items with
    | nil => simp [StatefulList.with_items, SelInv]
    | cons a t =>
      constructor
      · simp only [StatefulList.with_items, List.isEmpty_cons, if_false, SelInv]
        exact ⟨0, rfl, Nat.succ_pos _⟩
      · simp [StatefulList.with_items]
  · intro α l hinv
    cases hl : l.items with
    | nil =>
      have hst : l.state = none := by
        simpa [SelInv, hl] using hinv
      refine ⟨?_, ?_, ?_⟩
      · rw [next_empty l hl]; exact hinv
      · rw [previous_empty l hl]; exact hinv
      · simp [StatefulList.selected_item, hst, hl]
    | cons a t =>
      have hne : l.items ≠ [] := by rw [hl]; simp
      have hinv' : ∃ i, l.state = some i ∧ i < l.items.length := by
        simpa [SelInv, hl] using hinv
      obtain ⟨i, hs, hi⟩ := hinv'
      refine ⟨?_, ?_, ?_⟩
      · rw [next_state_inbounds l i hs hi]
        have hpos : 0 < l.items.length := Nat.lt_of_le_of_lt (Nat.zero_le _) hi
        simp only [SelInv]
        rw [if_neg (by simp [hl])]
        exact ⟨(i + 1) % l.items.length, rfl, Nat.mod_lt _ hpos⟩
      · rw [previous_state_inbounds l i hs hi]
        simp only [SelInv]
        rw [if_neg (by simp [hl])]
        refine ⟨if i = 0 then l.items.length - 1 else i - 1, rfl, ?_⟩
        by_cases h0 : i = 0 <;> simp [h0] <;> omega
      · have hsome : l.items[i]? = some l.items[i] := List.getElem?_eq_getElem hi
        simp [StatefulList.selected_item, hs, hne, hsome]

/-- C4 witness: the invariant clauses evaluated at the concrete two-element
list built by `with_items`. -/
theorem c4_selection_invariant_witness :
    SelInv (StatefulList.with_items [10, 20]) ∧
    SelInv (StatefulList.with_items [10, 20]).next ∧
    ((StatefulList.with_items [10, 20]).state = some 0 ↔ ([10, 20] : List Nat) ≠ []) := by
  have h1 := (c4_selection_invariant.1 Nat [10, 20]).1
  have h2 := (c4_selection_invariant.2 Nat (StatefulList.with_items [10, 20]) h1).1
  exact ⟨h1, h2, (c4_selection_invariant.1 Nat [10, 20]).2⟩

theorem next_iterate {α : Type} (l : StatefulList α) (i : Nat)
    (hs : l.state = some i) (hi : i < l.items.length) :
    ∀ k : Nat,
      StatefulList.next^[k] l = { l with state := some ((i + k) % l.items.length) } := by
  intro k
  induction k with
  | zero =>
    simp only [Function.iterate_zero, id_eq, Nat.add_zero, Nat.mod_eq_of_lt hi]
    cases l
    simp_all
  | succ k ih =>
    rw [Function.iterate_succ_apply', ih]
    have hpos : 0 < l.items.length := Nat.lt_of_le_of_lt (Nat.zero_le _) hi
    have hb : (i + k) % l.items.length < l.items.length := Nat.mod_lt _ hpos
    rw [next_state_inbounds ⟨some ((i + k) % l.items.length), l.items⟩
      ((i + k) % l.items.length) rfl hb]
    simp [Nat.mod_add_mod, Nat.add_assoc]

/-- C5: on a list satisfying the selection invariant, `next` advances the
selected index by one modulo the length (so it wraps from `len - 1` to `0`),
`len` iterations of `next` restore the list exactly, the down-class keys route
to `next`, and on the concrete five-entry menu four "down" presses reach index
4 while a fifth wraps back to index 0. -/
theorem c5_next_wraparound :
    (∀ (α : Type) (l : StatefulList α) (i : Nat),
      l.state = some i → i < l.items.length →
      l.next.state = some ((i + 1) % l.items.length) ∧
      StatefulList.next^[l.items.length] l = l) ∧
    (∀ l : StatefulList MenuItem,
      handle_menu_keys l KeyCode.down = (l.next, none) ∧
      handle_menu_keys l (KeyCode.char 'j') = (l.next, none)) ∧
    (menu5.state = some 0 ∧
      (pressDown^[4] menu5).state = some 4 ∧
      (pressDown^[5] menu5).state = some 0) := by
  refine ⟨?_, ?_, ?_⟩
  · intro α l i hs hi
    constructor
    · rw [next_state_inbounds l i hs hi]
    · have h := next_iterate l i hs hi l.items.length
      rw [h]
      have : (i + l.items.length) % l.items.length = i := by
        rw [Nat.add_mod_right]
        exact Nat.mod_eq_of_lt hi
      rw [this]
      cases l
      simp_all
  · intro l
    exact ⟨rfl, rfl⟩
  · refine ⟨rfl, ?_, ?_⟩ <;> decide

/-- C5 witness: the wraparound law applied to the concrete five-entry menu at
index 0. -/
theorem c5_next_wraparound_witness :
    menu5.state = some 0 ∧ (0 : Nat) < menu5.items.length ∧
    menu5.next.state = some ((0 + 1) % menu5.items.length) ∧
    StatefulList.next^[menu5.items.length] menu5 = menu5 := by
  have h := c5_next_wraparound.1 MenuItem menu5 0 (by decide) (by decide)
  exact ⟨by decide, by decide, h.1, h.2⟩

/-- C6 counterexample: the claim quantifies over every selection state, but on
the one-element list whose selection state is `None` (a state outside the
selection invariant), `next(); previous()` lands on `Some(0)` instead of
restoring `None`, so `previous` is not the exact inverse of `next` on all
states. -/
theorem c6_next_previous_counterexample :
    (⟨none, ["a"]⟩ : StatefulList String).next.previous ≠ ⟨none, ["a"]⟩ := by
  decide

/-- C6 (amended): on every list satisfying the selection invariant — all
states reachable through `with_items`/`next`/`previous` — the sequence
`next(); previous()` restores the list exactly. -/
theorem c6_next_previous_inverse {α : Type} (l : StatefulList α)
    (hinv : SelInv l) : l.next.previous = l := by
  cases hl : l.items with
  | nil =>
    rw [next_empty l hl, previous_empty l hl]
  | cons a t =>
    have hinv' : ∃ i, l.state = some i ∧ i < l.items.length := by
      simpa [SelInv, hl] using hinv
    obtain ⟨i, hs, hi⟩ := hinv'
    rw [next_state_inbounds l i hs hi]
    have hpos : 0 < l.items.length := Nat.lt_of_le_of_lt (Nat.zero_le _) hi
    have hb : (i + 1) % l.items.length < l.items.length := Nat.mod_lt _ hpos
    rw [previous_state_inbounds ⟨some ((i + 1) % l.items.length), l.items⟩
      ((i + 1) % l.items.length) rfl hb]
    have hstep : (if (i + 1) % l.items.length = 0 then l.items.length - 1
        else (i + 1) % l.items.length - 1) = i := by
      by_cases hlast : i + 1 = l.items.length
      · rw [hlast]
        simp [Nat.mod_self]
        omega
      · have hlt : i + 1 < l.items.length := by omega
        rw [Nat.mod_eq_of_lt hlt]
        simp
    rw [hstep]
    cases l
    simp_all

/-- C6 witness: the inverse law applied to the concrete list built by
`with_items`, whose invariant is discharged explicitly. -/
theorem c6_next_previous_inverse_witness :
    SelInv (StatefulList.with_items (["x", "y"] : List String)) ∧
    (StatefulList.with_items (["x", "y"] : List String)).next.previous =
      StatefulList.with_items (["x", "y"] : List String) := by
  have hinv : SelInv (StatefulList.with_items (["x", "y"] : List String)) := by
    simp only [SelInv, StatefulList.with_items]
    exact ⟨0, rfl, by decide⟩
  exact ⟨hinv, c6_next_previous_inverse _ hinv⟩

theorem execute_action_fields (app : App) (act : Action) :
    (execute_action app act).1.main_menu = app.main_menu ∧
    (execute_action app act).1.replicator_menu = app.replicator_menu ∧
    (execute_action app act).1.cloner_menu = app.cloner_menu ∧
    (execute_action app act).1.utilities_menu = app.utilities_menu ∧
    (execute_action app act).1.manual_install_menu = app.manual_install_menu ∧
    (execute_action app act).1.popup_list = app.popup_list ∧
    (execute_action app act).1.popup_input = app.popup_input := by
  cases act with
  | Quit => exact ⟨rfl, rfl, rfl, rfl, rfl, rfl, rfl⟩
  | SetView v => exact ⟨rfl, rfl, rfl, rfl, rfl, rfl, rfl⟩
  | Execute task => cases task <;> exact ⟨rfl, rfl, rfl, rfl, rfl, rfl, rfl⟩

theorem exec_mem_execute_action (app : App) (act x : Action)
    (h : Ev.exec x ∈ (execute_action app act).2) : x = act := by
  cases act with
  | Quit => simpa [execute_action] using h
  | SetView v => simpa [execute_action] using h
  | Execute task => cases task <;> simpa [execute_action] using h

theorem exec_self_mem_execute_action (app : App) (act : Action) :
    Ev.exec act ∈ (execute_action app act).2 := by
  cases act with
  | Quit => simp [execute_action]
  | SetView v => simp [execute_action]
  | Execute task => cases task <;> simp [execute_action]

theorem execute_action_setview (app : App) (v : AppView) :
    execute_action app (Action.SetView v) =
      ({ app with current_view := v }, [Ev.exec (Action.SetView v)]) := rfl

theorem commit_pending_menus (app : App) :
    menusEq app (commit_pending app).1 := by
  unfold commit_pending
  cases ha : app.popup_action with
  | none => exact ⟨rfl, rfl, rfl, rfl, rfl⟩
  | some act =>
    have h := execute_action_fields { app with popup_action := none } act
    exact ⟨h.1, h.2.1, h.2.2.1, h.2.2.2.1, h.2.2.2.2.1⟩

theorem commit_pending_setview (app : App) (v : AppView) :
    Ev.exec (Action.SetView v) ∈ (commit_pending app).2 →
    (commit_pending app).1.active_popup = Popup.None ∧
    (commit_pending app).1.current_view = v := by
  unfold commit_pending
  cases ha : app.popup_action with
  | none => intro h; simp at h
  | some act =>
    intro h
    have hact := exec_mem_execute_action { app with popup_action := none } act
      (Action.SetView v) h
    subst hact
    exact ⟨rfl, rfl⟩

theorem handle_popup_keys_menus (app : App) (k : KeyCode) :
    menusEq app (handle_popup_keys app k).1 := by
  unfold handle_popup_keys
  split <;>
    first
      | exact ⟨rfl, rfl, rfl, rfl, rfl⟩
      | (split <;>
          first
            | exact ⟨rfl, rfl, rfl, rfl, rfl⟩
            | exact commit_pending_menus app)

theorem handle_popup_keys_setview (app : App) (k : KeyCode) (v : AppView) :
    Ev.exec (Action.SetView v) ∈ (handle_popup_keys app k).2 →
    (handle_popup_keys app k).1.active_popup = Popup.None ∧
    (handle_popup_keys app k).1.current_view = v := by
  unfold handle_popup_keys
  split <;>
    first
      | (intro h; simp at h)
      | exact commit_pending_setview app v
      | (split <;>
          first
            | (intro h; simp at h)
            | exact commit_pending_setview app v)

theorem view_step_fields (app : App) (k : KeyCode) :
    (view_step app k).1.active_popup = app.active_popup ∧
    (view_step app k).1.should_quit = app.should_quit := by
  unfold view_step
  split <;> first | exact ⟨rfl, rfl⟩ | (split <;> exact ⟨rfl, rfl⟩)

/-- C2 counterexample: `execute_action` on `SetView` changes only the view; at
a state whose popup is `Confirm` — exactly the state in which the Confirm
handler runs a pending `SetView` — the popup is still open immediately after
the action executes, so the `SetView` branch itself does not reset the popup
to `None`. -/
theorem c2_setview_popup_counterexample :
    (execute_action { sampleApp with active_popup := Popup.Confirm }
        (Action.SetView AppView.Replicator)).1.active_popup ≠ Popup.None := by
  decide

/-- C2 (amended): the `SetView` branch of `execute_action` sets the active
view and leaves every other field — the popup included — untouched; the popup
is closed by the popup key handler after the pending action runs, so whenever
a complete key event executes `SetView(v)` the resulting state has view `v`
and popup `None`. -/
theorem c2_setview_end_to_end :
    (∀ (app : App) (v : AppView),
      execute_action app (Action.SetView v) =
        ({ app with current_view := v }, [Ev.exec (Action.SetView v)])) ∧
    (∀ (app : App) (k : KeyCode) (v : AppView),
      Ev.exec (Action.SetView v) ∈ (handle_key_event app k).2 →
      (handle_key_event app k).1.active_popup = Popup.None ∧
      (handle_key_event app k).1.current_view = v) := by
  refine ⟨fun app v => rfl, ?_⟩
  intro app k v
  unfold handle_key_event
  split
  · exact handle_popup_keys_setview app k v
  · rename_i hpop
    split
    · intro h; simp at h
    · split
      · rename_i action heq
        intro h
        have hact := exec_mem_execute_action (view_step app k).1 action
          (Action.SetView v) h
        subst hact
        rw [execute_action_setview]
        refine ⟨?_, rfl⟩
        show (view_step app k).1.active_popup = Popup.None
        rw [(view_step_fields app k).1]
        exact not_ne_iff.mp hpop
      · split <;> (intro h; simp at h)

/-- C2 witness: a Confirm popup over a pending `SetView(Utilities)`; pressing
`y` executes the view change and the resulting state has that view and no
popup. -/
theorem c2_setview_end_to_end_witness :
    Ev.exec (Action.SetView AppView.Utilities) ∈
      (handle_key_event confirmSetViewApp (KeyCode.char 'y')).2 ∧
    (handle_key_event confirmSetViewApp (KeyCode.char 'y')).1.active_popup =
      Popup.None ∧
    (handle_key_event confirmSetViewApp (KeyCode.char 'y')).1.current_view =
      AppView.Utilities := by
  have h := c2_setview_end_to_end.2 confirmSetViewApp (KeyCode.char 'y')
    AppView.Utilities (by decide)
  exact ⟨by decide, h.1, h.2⟩

/-- C7: while a popup is active, `handle_key_event` routes the key exclusively
to `handle_popup_keys` and the five per-view menus (items and selection) are
left unchanged; opening the Help popup with `?` only sets the popup field; and
in the v3 iteration, any key delivered while the help popup is shown merely
closes it, leaving the rest of the state — the menu selection included —
unchanged. -/
theorem c7_popup_exclusive :
    (∀ (app : App) (k : KeyCode), app.active_popup ≠ Popup.None →
      handle_key_event app k = handle_popup_keys app k ∧
      menusEq app (handle_key_event app k).1) ∧
    (∀ app : App, app.active_popup = Popup.None →
      handle_key_event app (KeyCode.char '?') =
        ({ app with active_popup := Popup.Help }, [])) ∧
    (∀ (a : V3.App) (k : KeyCode), a.show_help_popup = true →
      V3.handle_input k a = some { a with show_help_popup := false }) := by
  refine ⟨?_, ?_, ?_⟩
  · intro app k hpop
    have he : handle_key_event app k = handle_popup_keys app k := by
      unfold handle_key_event
      rw [if_pos hpop]
    exact ⟨he, he ▸ handle_popup_keys_menus app k⟩
  · intro app hpop
    unfold handle_key_event
    rw [if_neg (by simp [hpop]), if_pos rfl]
  · intro a k h
    by_cases hq : k = KeyCode.char '?' <;>
      simp [V3.handle_input, hq, h]

/-- C7 witness: a Help popup over the concrete sample state absorbs an Enter
key without touching any menu. -/
theorem c7_popup_exclusive_witness :
    ({ sampleApp with active_popup := Popup.Help } : App).active_popup ≠
      Popup.None ∧
    handle_key_event { sampleApp with active_popup := Popup.Help }
        KeyCode.enter =
      handle_popup_keys { sampleApp with active_popup := Popup.Help }
        KeyCode.enter ∧
    menusEq { sampleApp with active_popup := Popup.Help }
      (handle_key_event { sampleApp with active_popup := Popup.Help }
        KeyCode.enter).1 := by
  have h := c7_popup_exclusive.1 { sampleApp with active_popup := Popup.Help }
    KeyCode.enter (by decide)
  exact ⟨by decide, h.1, h.2⟩

/-- C8 counterexample: in a Confirm popup with a pending action, pressing `n`
closes the popup but the stored pending action is not cleared — the source's
discard arm never calls `take()`, so `popup_action` still holds the action. -/
theorem c8_confirm_discard_counterexample :
    (handle_popup_keys confirmQuitApp (KeyCode.char 'n')).1.popup_action ≠
      none := by
  decide

/-- C8 (amended): in a Confirm popup, `y`/`Y` takes the pending action out
(leaving `None`), executes it and closes the popup; `n`/`N`/Esc closes the
popup with no other effect — no action is executed and no task runs (the
event trace is empty), though the stored `popup_action` field is left in
place rather than cleared. -/
theorem c8_confirm_keys (app : App) (hc : app.active_popup = Popup.Confirm) :
    (∀ k : KeyCode,
      k = KeyCode.char 'n' ∨ k = KeyCode.char 'N' ∨ k = KeyCode.esc →
      handle_popup_keys app k = ({ app with active_popup := Popup.None }, [])) ∧
    (∀ act : Action, app.popup_action = some act →
      handle_popup_keys app (KeyCode.char 'y') =
        ({ (execute_action { app with popup_action := none } act).1
            with active_popup := Popup.None },
          (execute_action { app with popup_action := none } act).2) ∧
      handle_popup_keys app (KeyCode.char 'Y') =
        handle_popup_keys app (KeyCode.char 'y') ∧
      Ev.exec act ∈ (handle_popup_keys app (KeyCode.char 'y')).2) := by
  constructor
  · rintro k (rfl | rfl | rfl) <;> (unfold handle_popup_keys; rw [hc]) <;> rfl
  · intro act ha
    have hy : handle_popup_keys app (KeyCode.char 'y') = commit_pending app := by
      unfold handle_popup_keys; rw [hc]; rfl
    have hcp : commit_pending app =
        ({ (execute_action { app with popup_action := none } act).1
            with active_popup := Popup.None },
          (execute_action { app with popup_action := none } act).2) := by
      unfold commit_pending
      rw [ha]
    refine ⟨hy.trans hcp, ?_, ?_⟩
    · unfold handle_popup_keys; rw [hc]; rfl
    · rw [hy, hcp]
      exact exec_self_mem_execute_action _ act

/-- C8 witness: the Confirm-popup key contract applied at the concrete state
with a pending `Quit`: Esc closes without executing, `y` executes it. -/
theorem c8_confirm_keys_witness :
    confirmQuitApp.active_popup = Popup.Confirm ∧
    handle_popup_keys confirmQuitApp KeyCode.esc =
      ({ confirmQuitApp with active_popup := Popup.None }, []) ∧
    Ev.exec Action.Quit ∈
      (handle_popup_keys confirmQuitApp (KeyCode.char 'y')).2 := by
  refine ⟨rfl, ?_, ?_⟩
  · exact (c8_confirm_keys confirmQuitApp rfl).1 KeyCode.esc
      (Or.inr (Or.inr rfl))
  · exact ((c8_confirm_keys confirmQuitApp rfl).2 Action.Quit rfl).2.2

/-- C9: in the `Execute` branch of `execute_action`, the event trace is
exactly the action hand-off, then one full draw of the state already carrying
the working Action popup, then the await of the task future — so the working
popup is installed in session state and drawn once strictly before the task
begins running. -/
theorem c9_working_popup_before_await :
    ∀ (app : App) (task : TaskResult),
      (execute_action app (Action.Execute task)).2 =
        [Ev.exec (Action.Execute task),
         Ev.draw { app with popup_title := "Working...",
                            popup_text := "Please wait while the task completes.",
                            active_popup := Popup.Action },
         Ev.taskRun] ∧
      ({ app with popup_title := "Working...",
                  popup_text := "Please wait while the task completes.",
                  active_popup := Popup.Action } : App).active_popup =
        Popup.Action ∧
      (execute_action app (Action.Execute task)).1.active_popup =
        Popup.Action := by
  intro app task
  refine ⟨?_, rfl, ?_⟩ <;> cases task <;> rfl

/-- C1 (code-bug evidence): in the v3 iteration the error channel is
pattern-matched for navigation.  With the Quit entry (index 4) selected —
its task resolves to `Err("quit")` — Enter sets the quit flag instead of
opening an Action popup carrying the error text; with the Main Help entry
(index 3) selected — its task resolves to `Err("help")` — Enter performs a
view transition to the help manual.  The newest executor (`execute_action` in
`event.rs`) conforms to the claim: for every error text `e`, an `Err(e)`
outcome only rewrites the Action popup title/body, leaving the quit flag, the
view and all menus unchanged. -/
theorem c1_error_channel_navigation :
    (V3.handle_main_menu_input KeyCode.enter (v3at (Except.error ("boom")) 4) =
      some { v3at (Except.error ("boom")) 4 with should_quit := true }) ∧
    (V3.handle_main_menu_input KeyCode.enter (v3at (Except.error ("boom")) 3) =
      some { v3at (Except.error ("boom")) 3 with
              current_view := V3.AppView.HelpManual }) ∧
    (∀ (app : App) (e : String),
      (execute_action app (Action.Execute (Except.error e))).1.should_quit =
          app.should_quit ∧
      (execute_action app (Action.Execute (Except.error e))).1.current_view =
          app.current_view ∧
      (execute_action app (Action.Execute (Except.error e))).1.active_popup =
          Popup.Action ∧
      (execute_action app (Action.Execute (Except.error e))).1.popup_title =
          "Error" ∧
      (execute_action app (Action.Execute (Except.error e))).1.popup_text =
          "An error occurred: " ++ e ∧
      menusEq app (execute_action app (Action.Execute (Except.error e))).1) := by
  refine ⟨by rfl, by rfl, ?_⟩
  intro app e
  exact ⟨rfl, rfl, rfl, rfl, rfl, rfl, rfl, rfl, rfl, rfl⟩

/-- C10: in both the v4.0.0 and the v3.1.2 renderer, the context-help popup
over a menu view shows the help of the entry of that view's menu at index
`selected().unwrap_or(0)`; with no selection the entry at index 0 is used,
and with an empty menu the unchecked index is out of bounds (embedded as
`none`, the source's panic) instead of rendering without help text. -/
theorem c10_help_popup_indexing :
    (∀ app : V4.App, app.current_view = V4.AppView.MainMenu →
      V4.render_help_popup_text app =
        (app.main_menu.items.get? (app.main_menu.state.getD 0)).map
          V4.MenuItem.help) ∧
    (∀ app : V4.App, app.current_view = V4.AppView.Replicator →
      V4.render_help_popup_text app =
        (app.replicator_menu.items.get? (app.replicator_menu.state.getD 0)).map
          V4.MenuItem.help) ∧
    (∀ app : V4.App, app.current_view = V4.AppView.Cloner →
      V4.render_help_popup_text app =
        (app.cloner_menu.items.get? (app.cloner_menu.state.getD 0)).map
          V4.MenuItem.help) ∧
    (∀ app : V4.App, app.current_view = V4.AppView.Utilities →
      V4.render_help_popup_text app =
        (app.utilities_menu.items.get? (app.utilities_menu.state.getD 0)).map
          V4.MenuItem.help) ∧
    (∀ app : V4.App, app.current_view = V4.AppView.MainMenu →
      app.main_menu.state = none →
      V4.render_help_popup_text app =
        (app.main_menu.items.get? 0).map V4.MenuItem.help) ∧
    (∀ app : V4.App, app.current_view = V4.AppView.MainMenu →
      app.main_menu.items = [] → V4.render_help_popup_text app = none) ∧
    (∀ app : V3.App, app.current_view = V3.AppView.MainMenu →
      V3.render_help_popup_text app =
        (app.main_menu.items.get? (app.main_menu.state.getD 0)).map
          V3.MenuItem.help) ∧
    (∀ app : V3.App, app.current_view = V3.AppView.MainMenu →
      app.main_menu.items = [] → V3.render_help_popup_text app = none) := by
  refine ⟨?_, ?_, ?_, ?_, ?_, ?_, ?_, ?_⟩
  · intro app h; simp [V4.render_help_popup_text, h]
  · intro app h; simp [V4.render_help_popup_text, h]
  · intro app h; simp [V4.render_help_popup_text, h]
  · intro app h; simp [V4.render_help_popup_text, h]
  · intro app h hs; simp [V4.render_help_popup_text, h, hs]
  · intro app h he; simp [V4.render_help_popup_text, h, he]
  · intro app h; simp [V3.render_help_popup_text, h]
  · intro app h he; simp [V3.render_help_popup_text, h, he]

/-- C10 witness: a v4 state on MainMenu with an empty, unselected menu: the
renderer's index is out of bounds (`none`). -/
theorem c10_help_popup_indexing_witness :
    (V4.sample V4.AppView.MainMenu ⟨none, []⟩).current_view =
      V4.AppView.MainMenu ∧
    (V4.sample V4.AppView.MainMenu ⟨none, []⟩).main_menu.items = [] ∧
    V4.render_help_popup_text (V4.sample V4.AppView.MainMenu ⟨none, []⟩) =
      none := by
  exact ⟨rfl, rfl, c10_help_popup_indexing.2.2.2.2.2.1 _ rfl rfl⟩

end ArchSuite
